import Mathlib

/-!
Verification development for the OCI Intelligent Documentation Assistant
(`src/demo.py`): a shallow embedding of its core pipeline.

The program has three parts relevant here:
* a Replicate client `run_replicate_model` with an unbounded 429-retry
  submission loop and an unbounded status-polling loop;
* a LangGraph workflow over a dict-shaped `State` with steps `router`,
  `command`, `answer` and a conditional branch `route_decision`;
* a Flask boundary `chat` deriving `tool_used` from the final state.

Model invocations return raw text that the program feeds to `json.loads`;
the embedding abstracts each model call by its outcome (the parsed JSON
value, or `none` when `json.loads` raises), and the answer model by a
function from the effective prompt to the reply text.  HTTP responses are
abstracted by their status code and decoded JSON body.  The unbounded
loops are run against an explicit (finite) list of successive responses;
exhausting the list is marked by a distinguished `noResponse` outcome so
that unboundedness can be stated as: on an all-429 prefix the loop never
produces anything else.
-/

namespace OciIda

/-- JSON values as produced by `json.loads` (numbers restricted to
integers; the claims only involve integral numbers). -/
inductive Json where
  | null : Json
  | bool : Bool → Json
  | num : Int → Json
  | str : String → Json
  | arr : List Json → Json
  | obj : List (String × Json) → Json
deriving Repr

/-- Python `d[k]` / `d.get(k)` lookup on a decoded JSON object,
represented as an association list with distinct keys. -/
def jget (kvs : List (String × Json)) (k : String) : Option Json :=
  match kvs with
  | [] => none
  | (k2, v) :: rest => if k2 = k then some v else jget rest k

/-- Python truthiness of a decoded JSON value. -/
def truthy : Json → Bool
  | .null => false
  | .bool b => b
  | .num n => n != 0
  | .str s => s != ""
  | .arr l => !l.isEmpty
  | .obj l => !l.isEmpty

/-- Python truthiness of `d.get(k)`: an absent key yields `None`,
which is falsy. -/
def truthyOpt : Option Json → Bool
  | none => false
  | some v => truthy v

/-- Python `int(x)` on a decoded JSON value: `none` when `int` raises
(`TypeError`/`ValueError`). -/
def pyInt : Json → Option Int
  | .bool b => some (if b then 1 else 0)
  | .num n => some n
  | .str s => s.trim.toInt?
  | _ => none

/-- One hexadecimal digit. -/
def hexDigit (n : Nat) : Char :=
  if n < 10 then Char.ofNat (48 + n) else Char.ofNat (87 + (n % 16))

/-- `json.dumps` escaping of one character (with `ensure_ascii=False`:
non-ASCII characters pass through unescaped). -/
def escChar (c : Char) : String :=
  if c = '"' then "\\\""
  else if c = '\\' then "\\\\"
  else if c = '\n' then "\\n"
  else if c = '\t' then "\\t"
  else if c = '\r' then "\\r"
  else if c = '\x08' then "\\b"
  else if c = '\x0c' then "\\f"
  else if c.toNat < 0x20 then
    "\\u00" ++ String.singleton (hexDigit (c.toNat / 16))
            ++ String.singleton (hexDigit (c.toNat % 16))
  else String.singleton c

/-- `json.dumps` rendering of a string literal. -/
def jstrEsc (s : String) : String :=
  "\"" ++ String.join (s.toList.map escChar) ++ "\""

mutual

/-- `json.dumps(v, ensure_ascii=False)` with the default separators. -/
def dumps : Json → String
  | .null => "null"
  | .bool b => if b then "true" else "false"
  | .num n => toString n
  | .str s => jstrEsc s
  | .arr l => "[" ++ dumpsList l ++ "]"
  | .obj l => "\x7b" ++ dumpsObj l ++ "\x7d"

/-- Comma-separated rendering of array elements. -/
def dumpsList : List Json → String
  | [] => ""
  | [x] => dumps x
  | x :: y :: rest => dumps x ++ ", " ++ dumpsList (y :: rest)

/-- Comma-separated rendering of object members. -/
def dumpsObj : List (String × Json) → String
  | [] => ""
  | [(k, v)] => jstrEsc k ++ ": " ++ dumps v
  | (k, v) :: m :: rest => jstrEsc k ++ ": " ++ dumps v ++ ", " ++ dumpsObj (m :: rest)

end

mutual

/-- Python `repr` of a decoded JSON value (string escaping elided:
no claim depends on repr of strings containing quotes). -/
def pyRepr : Json → String
  | .null => "None"
  | .bool b => if b then "True" else "False"
  | .num n => toString n
  | .str s => "\x27" ++ s ++ "\x27"
  | .arr l => "[" ++ pyReprList l ++ "]"
  | .obj l => "\x7b" ++ pyReprObj l ++ "\x7d"

/-- Comma-separated `repr` of list elements. -/
def pyReprList : List Json → String
  | [] => ""
  | [x] => pyRepr x
  | x :: y :: rest => pyRepr x ++ ", " ++ pyReprList (y :: rest)

/-- Comma-separated `repr` of dict members. -/
def pyReprObj : List (String × Json) → String
  | [] => ""
  | [(k, v)] => "\x27" ++ k ++ "\x27: " ++ pyRepr v
  | (k, v) :: m :: rest => "\x27" ++ k ++ "\x27: " ++ pyRepr v ++ ", " ++ pyReprObj (m :: rest)

end

/-- Python `str(x)` on a decoded JSON value. -/
def pyStr : Json → String
  | .str s => s
  | v => pyRepr v

/-- Exceptions the embedded code can raise (Python exception classes). -/
inductive PyError where
  /-- `KeyError` from `d[k]` on a dict missing `k`. -/
  | keyError : String → PyError
  /-- `AttributeError` from `.get` on a non-dict value. -/
  | attributeError : PyError
  /-- `TypeError` (e.g. subscripting a non-dict, joining non-strings). -/
  | typeError : PyError
  /-- `json.JSONDecodeError` from `.json()` on a malformed body. -/
  | jsonDecodeError : PyError
  /-- `httpx.HTTPStatusError` from `raise_for_status` (carries the code). -/
  | httpStatusError : Nat → PyError
  /-- `RuntimeError(f"Replicate prediction STATUS: PAYLOAD")` from a
  `failed`/`canceled` poll: carries the status value and the full payload. -/
  | modelError : Json → Json → PyError
  /-- Artifact of finite modelling: the supplied response list was
  exhausted while the (unbounded) source loop was still running. -/
  | noResponse : PyError
deriving Repr

/-- An HTTP response as the client sees it: status code, plus the decoded
JSON body (`none` when `r.json()` would raise). -/
structure HttpResp where
  status : Nat
  body : Option Json

/-- `int(r.json().get("retry_after", 5))` wrapped in `try/except` with
fallback `5`: the body failing to decode, `.get` raising on a non-dict
body, and `int` raising on an unconvertible value all yield `5`. -/
def retry_after_of (body : Option Json) : Int :=
  match body with
  | some (Json.obj kvs) =>
      match jget kvs "retry_after" with
      | none => 5
      | some v => (pyInt v).getD 5
  | _ => 5

/-- The `POST /predictions` submission loop of `run_replicate_model`
(step 2), run over the list of successive responses.  Returns the list of
`time.sleep` durations performed and the outcome: the prediction id
`r.json()["id"]` on the first non-429 success, or the raised exception.
A 429 response sleeps `retry_after + 1` and retries; any other status
goes through `raise_for_status` and then reads the id. -/
def submitLoop : List HttpResp → List Int × Except PyError Json
  | [] => ([], .error .noResponse)
  | r :: rest =>
      if r.status = 429 then
        let w := retry_after_of r.body
        let (sl, res) := submitLoop rest
        ((w + 1) :: sl, res)
      else if 400 ≤ r.status then
        ([], .error (.httpStatusError r.status))
      else
        match r.body with
        | none => ([], .error .jsonDecodeError)
        | some (Json.obj kvs) =>
            match jget kvs "id" with
            | some v => ([], .ok v)
            | none => ([], .error (.keyError "id"))
        | some _ => ([], .error .typeError)

/-- Python `v == "s"` for a decoded JSON value `v` against a string
literal: true exactly when `v` is that string. -/
def isJStr (v : Json) (s : String) : Bool :=
  match v with
  | Json.str t => t = s
  | _ => false

/-- Python `"".join(out)`: concatenates the fragments, raising
`TypeError` when an element is not a string. -/
def joinStrs : List Json → Except PyError String
  | [] => .ok ""
  | Json.str s :: rest => (joinStrs rest).map (fun t => s ++ t)
  | _ :: _ => .error .typeError

/-- The `succeeded` branch of the polling loop:
`out = j.get("output", ""); return "".join(out) if isinstance(out, list) else str(out)`. -/
def succOutput (kvs : List (String × Json)) : Except PyError String :=
  match (jget kvs "output").getD (Json.str "") with
  | Json.arr l => joinStrs l
  | v => .ok (pyStr v)

/-- The status-polling loop of `run_replicate_model` (step 3), run over
the list of successive decoded poll bodies (`none` when `.json()` raises).
Returns the number of 1-time-unit sleeps performed and the outcome:
the accumulated output on `succeeded`, the `RuntimeError` on
`failed`/`canceled` (carrying the status value and the full payload, as
the source's f-string does), a poll again after `time.sleep(1)` on any
other status.  `pid` is the prediction id, used by the source only in
the polling URL. -/
def pollLoop (pid : Json) : List (Option Json) → Nat × Except PyError String
  | [] => (0, .error .noResponse)
  | b :: rest =>
      match b with
      | none => (0, .error .jsonDecodeError)
      | some (Json.obj kvs) =>
          match jget kvs "status" with
          | none => (0, .error (.keyError "status"))
          | some st =>
              if isJStr st "succeeded" then
                (0, succOutput kvs)
              else if isJStr st "failed" || isJStr st "canceled" then
                (0, .error (.modelError st (Json.obj kvs)))
              else
                let (n, res) := pollLoop pid rest
                (n + 1, res)
      | some _ => (0, .error .typeError)

/-- The dict-shaped LangGraph state (`class State(TypedDict, total=False)`).
`route` and `command` hold whatever `json.loads` produced (the TypedDict
annotation `Dict[str, Any]` is not enforced at runtime), hence `Json`. -/
structure State where
  user_input : String
  route : Option Json := none
  command : Option Json := none
  reply : Option String := none
deriving Repr

/-- The fallback record the `router` step stores when its raw output is
not valid JSON. -/
def routerFallback : Json :=
  Json.obj [("use_command_tool", Json.bool false),
            ("missing_fields", Json.arr []),
            ("reason", Json.str "Router output not valid JSON")]

/-- The fallback record the `command` step stores when its raw output is
not valid JSON. -/
def commandFallback : Json :=
  Json.obj [("generated_command", Json.str ""),
            ("missing_fields", Json.arr []),
            ("notes", Json.str "Command output not valid JSON")]

/-- The `router` step: stores `json.loads(raw)` into `state["route"]`,
or the conservative fallback when parsing raises.  `parsed` is the
outcome of `json.loads` on the model's raw output (`none` = raised). -/
def router (parsed : Option Json) (state : State) : State :=
  match parsed with
  | some v => { state with route := some v }
  | none => { state with route := some routerFallback }

/-- The `command` step: stores `json.loads(raw)` into `state["command"]`,
or the empty-command fallback when parsing raises. -/
def command (parsed : Option Json) (state : State) : State :=
  match parsed with
  | some v => { state with command := some v }
  | none => { state with command := some commandFallback }

/-- The `[CommandTool]` side-channel block appended to the user prompt by
the `answer` step when `"command" in state`. -/
def toolInfo (state : State) : String :=
  match state.command with
  | some c => "\n[CommandTool]\n" ++ dumps c ++ "\n"
  | none => ""

/-- The effective user prompt of the `answer` step:
`state["user_input"] + tool_info`. -/
def answerPrompt (state : State) : String :=
  state.user_input ++ toolInfo state

/-- The `answer` step: calls the model on the effective prompt and writes
the result into `state["reply"]`.  `model` abstracts
`run_replicate_model(SYSTEM_PROMPT, ·, 300, 0.3)`. -/
def answer (model : String → String) (state : State) : State :=
  { state with reply := some (model (answerPrompt state)) }

/-- The conditional branch:
`return "command" if state["route"].get("use_command_tool") else "answer"`.
`state["route"]` raises `KeyError` when absent; `.get` raises
`AttributeError` when the stored route value is not a dict. -/
def route_decision (state : State) : Except PyError String :=
  match state.route with
  | none => .error (.keyError "route")
  | some (Json.obj kvs) =>
      .ok (if truthyOpt (jget kvs "use_command_tool") then "command" else "answer")
  | some _ => .error .attributeError

/-- The named graph nodes. -/
inductive Node where
  | router : Node
  | command : Node
  | answer : Node
deriving DecidableEq, Repr

/-- Outcomes of the model calls made during one graph run: the parse
outcome of the router step's raw output, the parse outcome of the command
step's raw output, and the answer model as a function of its effective
prompt. -/
structure Oracle where
  routerParsed : Option Json
  commandParsed : Option Json
  answerModel : String → String

/-- One run of the compiled graph (`CHAT_GRAPH.invoke`): entry point
`router`, conditional edges `router → command`/`router → answer` through
`route_decision`, edge `command → answer`, edge `answer → END`.  Returns
the sequence of executed nodes and the final state (or the exception that
escaped `route_decision`). -/
def runGraphTrace (o : Oracle) (q : String) : List Node × Except PyError State :=
  let s0 : State := { user_input := q }
  let s1 := router o.routerParsed s0
  match route_decision s1 with
  | .error e => ([Node.router], .error e)
  | .ok dest =>
      if dest = "command" then
        let s2 := command o.commandParsed s1
        ([Node.router, Node.command, Node.answer], .ok (answer o.answerModel s2))
      else
        ([Node.router, Node.answer], .ok (answer o.answerModel s1))

/-- The JSON body returned by `POST /api/chat`. -/
structure ChatResponse where
  reply : String
  tool_used : Bool
  generated_command : Json
  missing_fields : Json
deriving Repr

/-- The boundary derivation of `tool_used` from the final state:
`cmd = out.get("command", {})`, then
`bool(cmd.get("generated_command")) or bool(cmd.get("missing_fields"))`
(a function of the final state only; `State` holds no tool-used flag). -/
def toolUsedOf (cmd : Option Json) : Bool :=
  match cmd.getD (Json.obj []) with
  | Json.obj kvs =>
      truthyOpt (jget kvs "generated_command") || truthyOpt (jget kvs "missing_fields")
  | _ => false

/-- The response-building tail of the `chat` handler, as a function of
the final graph state `out`: `cmd = out.get("command", {})`, the
`tool_used` derivation, and the response dict.  When the stored command
value is a non-dict, `cmd.get` raises `AttributeError` (propagated). -/
def chatResponseOf (out : State) : Except PyError ChatResponse :=
  match out.command.getD (Json.obj []) with
  | Json.obj kvs =>
      .ok { reply := out.reply.getD "",
            tool_used := truthyOpt (jget kvs "generated_command")
                         || truthyOpt (jget kvs "missing_fields"),
            generated_command := (jget kvs "generated_command").getD (Json.str ""),
            missing_fields := (jget kvs "missing_fields").getD (Json.arr []) }
  | _ => .error .attributeError

/-- The `chat` handler: invokes the graph on `{"user_input": q}` and
builds the response dict from the final state. -/
def chat (o : Oracle) (q : String) : Except PyError ChatResponse :=
  match (runGraphTrace o q).2 with
  | .error e => .error e
  | .ok out => chatResponseOf out

/-! ### Helper lemmas -/

/-- Every graph run executes `router` first and then either both
`command` and `answer`, only `answer`, or stops with the exception
raised by `route_decision`. -/
theorem runGraphTrace_cases (o : Oracle) (q : String) :
    (runGraphTrace o q
      = ([Node.router, Node.command, Node.answer],
         Except.ok (answer o.answerModel (command o.commandParsed (router o.routerParsed { user_input := q }))))) ∨
    (runGraphTrace o q
      = ([Node.router, Node.answer],
         Except.ok (answer o.answerModel (router o.routerParsed { user_input := q })))) ∨
    (∃ e, runGraphTrace o q = ([Node.router], Except.error e)) := by
  rcases hrd : route_decision (router o.routerParsed { user_input := q }) with e | d
  · exact Or.inr (Or.inr ⟨e, by simp [runGraphTrace, hrd]⟩)
  · by_cases hd : d = "command"
    · subst hd
      exact Or.inl (by simp [runGraphTrace, hrd])
    · refine Or.inr (Or.inl ?_)
      simp [runGraphTrace, hrd, hd]

/-- `route_decision` on a run's post-router state only ever answers
`"command"` or `"answer"`. -/
theorem route_decision_values (s : State) (d : String)
    (h : route_decision s = Except.ok d) : d = "command" ∨ d = "answer" := by
  unfold route_decision at h
  rcases hr : s.route with _ | v
  · rw [hr] at h
    exact Except.noConfusion h
  · rw [hr] at h
    cases v with
    | obj kvs =>
        have h2 : (if truthyOpt (jget kvs "use_command_tool") then "command" else "answer") = d :=
          Except.ok.inj h
        by_cases hb : truthyOpt (jget kvs "use_command_tool") = true
        · rw [if_pos hb] at h2
          exact Or.inl h2.symm
        · rw [if_neg hb] at h2
          exact Or.inr h2.symm
    | null => exact Except.noConfusion h
    | bool b => exact Except.noConfusion h
    | num n => exact Except.noConfusion h
    | str t => exact Except.noConfusion h
    | arr l => exact Except.noConfusion h

/-! ### Claim theorems -/

/-- **C3**: when the router step's raw output fails to parse as JSON, the
step stores the conservative fallback record (`use_command_tool = false`,
empty `missing_fields`, parse-failure marker as `reason`) and propagates
no error; on such a request the graph takes `router → answer` and the
command step is skipped. -/
theorem router_decode_fallback :
    (∀ s : State, router none s
      = { s with route := some (Json.obj
          [("use_command_tool", Json.bool false),
           ("missing_fields", Json.arr []),
           ("reason", Json.str "Router output not valid JSON")]) }) ∧
    (∀ (cp : Option Json) (am : String → String) (q : String),
      (runGraphTrace ⟨none, cp, am⟩ q).1 = [Node.router, Node.answer] ∧
      Node.command ∉ (runGraphTrace ⟨none, cp, am⟩ q).1 ∧
      ∃ s, (runGraphTrace ⟨none, cp, am⟩ q).2 = Except.ok s) := by
  constructor
  · exact fun s => rfl
  · intro cp am q
    refine ⟨rfl, ?_, ⟨answer am (router none { user_input := q }), rfl⟩⟩
    have h : (runGraphTrace ⟨none, cp, am⟩ q).1 = [Node.router, Node.answer] := rfl
    rw [h]
    decide

/-- **C4**: when the command step's raw output fails to parse as JSON,
the step stores the fallback record (`generated_command = ""`, empty
`missing_fields`, parse-failure marker as `notes`) instead of raising;
whenever the command step ran with such an output, the run still ends at
the `answer` step with a final state holding that fallback record. -/
theorem command_decode_fallback :
    (∀ s : State, command none s
      = { s with command := some (Json.obj
          [("generated_command", Json.str ""),
           ("missing_fields", Json.arr []),
           ("notes", Json.str "Command output not valid JSON")]) }) ∧
    (∀ (rp : Option Json) (am : String → String) (q : String),
      Node.command ∈ (runGraphTrace ⟨rp, none, am⟩ q).1 →
      (runGraphTrace ⟨rp, none, am⟩ q).1.getLast? = some Node.answer ∧
      ∃ s, (runGraphTrace ⟨rp, none, am⟩ q).2 = Except.ok s ∧
        s.command = some (Json.obj
          [("generated_command", Json.str ""),
           ("missing_fields", Json.arr []),
           ("notes", Json.str "Command output not valid JSON")])) := by
  constructor
  · exact fun s => rfl
  · intro rp am q hmem
    rcases runGraphTrace_cases ⟨rp, none, am⟩ q with h | h | ⟨e, h⟩
    · rw [h]
      exact ⟨rfl, ⟨answer am (command none (router rp { user_input := q })), rfl, rfl⟩⟩
    · rw [h] at hmem
      simp at hmem
    · rw [h] at hmem
      simp at hmem

/-- **C4** witness: a concrete run that takes the command path with a
decode failure still reaches `answer` and ends with the fallback record. -/
theorem command_decode_fallback_witness :
    (runGraphTrace ⟨some (Json.obj [("use_command_tool", Json.bool true)]), none, fun p => p⟩ "q").1.getLast?
        = some Node.answer ∧
    ∃ s, (runGraphTrace ⟨some (Json.obj [("use_command_tool", Json.bool true)]), none, fun p => p⟩ "q").2
        = Except.ok s ∧
      s.command = some (Json.obj
        [("generated_command", Json.str ""),
         ("missing_fields", Json.arr []),
         ("notes", Json.str "Command output not valid JSON")]) :=
  command_decode_fallback.2 (some (Json.obj [("use_command_tool", Json.bool true)]))
    (fun p => p) "q" (by decide)

/-- **C10**: a router raw output that is valid JSON but not a JSON object
(here the array `[1]`) is stored into the state as-is — no fallback is
substituted — and `route_decision`'s `.get` on it raises an unhandled
`AttributeError`, aborting the run instead of routing it. -/
theorem nonobject_route_unhandled :
    (router (some (Json.arr [Json.num 1])) { user_input := "q" }).route
        = some (Json.arr [Json.num 1]) ∧
    route_decision (router (some (Json.arr [Json.num 1])) { user_input := "q" })
        = Except.error PyError.attributeError ∧
    runGraphTrace ⟨some (Json.arr [Json.num 1]), none, fun p => p⟩ "q"
        = ([Node.router], Except.error PyError.attributeError) :=
  ⟨rfl, rfl, rfl⟩

/-- **C5**: every completed graph run executes the `answer` step exactly
once, as the last step; `router` and `command` never write `reply`,
`answer` always writes it, and the initial state has no `reply` — so
`reply` is set exactly once, at the terminal step. -/
theorem answer_runs_once (o : Oracle) (q : String) (tr : List Node) (s : State)
    (h : runGraphTrace o q = (tr, Except.ok s)) :
    tr.count Node.answer = 1 ∧ tr.getLast? = some Node.answer ∧
    (∀ (p : Option Json) (st : State), (router p st).reply = st.reply) ∧
    (∀ (p : Option Json) (st : State), (command p st).reply = st.reply) ∧
    (∀ (m : String → String) (st : State),
      (answer m st).reply = some (m (answerPrompt st))) ∧
    ({ user_input := q : State }).reply = none := by
  have key : tr = [Node.router, Node.command, Node.answer] ∨ tr = [Node.router, Node.answer] := by
    rcases runGraphTrace_cases o q with h2 | h2 | ⟨e, h2⟩
    · rw [h] at h2
      injection h2 with h3 h4
      exact Or.inl h3
    · rw [h] at h2
      injection h2 with h3 h4
      exact Or.inr h3
    · rw [h] at h2
      injection h2 with h3 h4
      exact Except.noConfusion h4
  rcases key with hk | hk <;> subst hk <;>
    exact ⟨by decide, by decide, fun p st => by cases p <;> rfl,
           fun p st => by cases p <;> rfl, fun m st => rfl, rfl⟩

/-- **C5** witness: on a concrete run taking the router → answer path,
the trace contains the `answer` node exactly once. -/
theorem answer_runs_once_witness :
    ([Node.router, Node.answer] : List Node).count Node.answer = 1 :=
  (answer_runs_once ⟨none, none, fun _ => "r"⟩ "q" [Node.router, Node.answer]
    (answer (fun _ => "r") (router none { user_input := "q" })) rfl).1

/-- **C6**: when the router's decision record has `use_command_tool`
equal to `false`, the command step never executes and the final state
holds no command record. -/
theorem skip_command_when_false (kvs : List (String × Json)) (cp : Option Json)
    (am : String → String) (q : String)
    (h : jget kvs "use_command_tool" = some (Json.bool false)) :
    (runGraphTrace ⟨some (Json.obj kvs), cp, am⟩ q).1 = [Node.router, Node.answer] ∧
    Node.command ∉ (runGraphTrace ⟨some (Json.obj kvs), cp, am⟩ q).1 ∧
    ∃ s, (runGraphTrace ⟨some (Json.obj kvs), cp, am⟩ q).2 = Except.ok s ∧
      s.command = none := by
  have hrd : route_decision (router (some (Json.obj kvs)) { user_input := q })
      = Except.ok "answer" := by
    simp [route_decision, router, h, truthyOpt, truthy]
  have htr : runGraphTrace ⟨some (Json.obj kvs), cp, am⟩ q
      = ([Node.router, Node.answer],
         Except.ok (answer am (router (some (Json.obj kvs)) { user_input := q }))) := by
    simp [runGraphTrace, hrd]
  have h1 : (runGraphTrace ⟨some (Json.obj kvs), cp, am⟩ q).1 = [Node.router, Node.answer] := by
    rw [htr]
  refine ⟨h1, ?_,
    ⟨answer am (router (some (Json.obj kvs)) { user_input := q }), by rw [htr], rfl⟩⟩
  rw [h1]
  decide

/-- **C6** witness: a concrete request whose router decision carries
`use_command_tool = false` runs only `router` and `answer`. -/
theorem skip_command_when_false_witness :
    (runGraphTrace ⟨some (Json.obj [("use_command_tool", Json.bool false)]), none, fun p => p⟩ "q").1
      = [Node.router, Node.answer] :=
  (skip_command_when_false [("use_command_tool", Json.bool false)] none (fun p => p) "q" rfl).1

/-- **C2** counterexample: a router decision whose `use_command_tool`
field holds the truthy non-boolean `"yes"` sends the run to the command
step even though the field does not equal `true` — refuting "router →
command exactly when the stored decision has `use_command_tool == true`". -/
theorem route_truthy_counterexample :
    route_decision (router (some (Json.obj [("use_command_tool", Json.str "yes")])) { user_input := "q" })
      = Except.ok "command" ∧
    (runGraphTrace ⟨some (Json.obj [("use_command_tool", Json.str "yes")]), none, fun p => p⟩ "q").1
      = [Node.router, Node.command, Node.answer] ∧
    jget [("use_command_tool", Json.str "yes")] "use_command_tool" ≠ some (Json.bool true) :=
  ⟨rfl, rfl, fun hcontra => Json.noConfusion (Option.some.inj hcontra)⟩

/-- **C2** (amended): when the stored route decision is a JSON object,
the graph transitions router → command exactly when its
`use_command_tool` field is present with a Python-truthy value (in
particular when it is `true`), and router → answer otherwise (including
when the field is absent or falsy); the command step, when taken,
transitions to answer unconditionally. -/
theorem route_decision_truthy (kvs : List (String × Json)) (cp : Option Json)
    (am : String → String) (q : String) (s : State)
    (h : s.route = some (Json.obj kvs)) :
    route_decision s
      = Except.ok (if truthyOpt (jget kvs "use_command_tool") then "command" else "answer") ∧
    ((runGraphTrace ⟨some (Json.obj kvs), cp, am⟩ q).1
      = if truthyOpt (jget kvs "use_command_tool")
        then [Node.router, Node.command, Node.answer]
        else [Node.router, Node.answer]) ∧
    (∀ o2 : Oracle, Node.command ∈ (runGraphTrace o2 q).1 →
      (runGraphTrace o2 q).1 = [Node.router, Node.command, Node.answer]) := by
  have hrd : route_decision (router (some (Json.obj kvs)) { user_input := q })
      = Except.ok (if truthyOpt (jget kvs "use_command_tool") then "command" else "answer") := by
    simp [route_decision, router]
  refine ⟨by simp [route_decision, h], ?_, ?_⟩
  · by_cases hb : truthyOpt (jget kvs "use_command_tool") = true
    · simp [runGraphTrace, hrd, hb]
    · simp [runGraphTrace, hrd, hb]
  · intro o2 hmem
    rcases runGraphTrace_cases o2 q with h2 | h2 | ⟨e, h2⟩
    · rw [h2]
    · rw [h2] at hmem
      simp at hmem
    · rw [h2] at hmem
      simp at hmem

/-- **C2** witness: a decision object carrying the truthy value `1`
routes to `"command"`. -/
theorem route_decision_truthy_witness :
    route_decision { user_input := "q", route := some (Json.obj [("use_command_tool", Json.num 1)]) }
      = Except.ok (if truthyOpt (jget [("use_command_tool", Json.num 1)] "use_command_tool")
                   then "command" else "answer") :=
  (route_decision_truthy [("use_command_tool", Json.num 1)] none (fun p => p) "q"
    { user_input := "q", route := some (Json.obj [("use_command_tool", Json.num 1)]) } rfl).1

/-- **C7**: the answer step's effective prompt is the original
`user_input` when no command record is in state, and `user_input`
followed by the serialized `[CommandTool]` JSON block containing the
stored command record when one is present; on the `use_command_tool`-true
path the command step runs before `answer` and its (possibly fallback)
result appears serialized in `answer`'s prompt. -/
theorem answer_prompt_augmentation (kvs : List (String × Json)) (cp : Option Json)
    (am : String → String) (q : String)
    (hTrue : jget kvs "use_command_tool" = some (Json.bool true)) :
    (∀ s : State, s.command = none → answerPrompt s = s.user_input) ∧
    (∀ (s : State) (c : Json), s.command = some c →
      answerPrompt s = s.user_input ++ ("\n[CommandTool]\n" ++ dumps c ++ "\n")) ∧
    (∀ (m : String → String) (s : State),
      answer m s = { s with reply := some (m (answerPrompt s)) }) ∧
    (runGraphTrace ⟨some (Json.obj kvs), cp, am⟩ q).1
        = [Node.router, Node.command, Node.answer] ∧
    (runGraphTrace ⟨some (Json.obj kvs), cp, am⟩ q).2
        = Except.ok
            { user_input := q,
              route := some (Json.obj kvs),
              command := some (cp.getD commandFallback),
              reply := some (am (q ++ ("\n[CommandTool]\n" ++ dumps (cp.getD commandFallback) ++ "\n"))) } := by
  have hrd : route_decision (router (some (Json.obj kvs)) { user_input := q })
      = Except.ok "command" := by
    simp [route_decision, router, hTrue, truthyOpt, truthy]
  have htr : runGraphTrace ⟨some (Json.obj kvs), cp, am⟩ q
      = ([Node.router, Node.command, Node.answer],
         Except.ok (answer am (command cp (router (some (Json.obj kvs)) { user_input := q })))) := by
    simp [runGraphTrace, hrd]
  refine ⟨?_, ?_, fun m s => rfl, by rw [htr], ?_⟩
  · intro s hs
    simp [answerPrompt, toolInfo, hs]
  · intro s c hs
    simp [answerPrompt, toolInfo, hs]
  · rw [htr]
    cases cp with
    | none => rfl
    | some v => rfl

/-- **C7** witness: a concrete `use_command_tool`-true run whose trace is
router, command, answer. -/
theorem answer_prompt_augmentation_witness :
    (runGraphTrace ⟨some (Json.obj [("use_command_tool", Json.bool true)]),
        some (Json.obj [("generated_command", Json.str "oci os ns get"),
                        ("missing_fields", Json.arr []),
                        ("notes", Json.str "")]),
        fun p => p⟩ "list").1
      = [Node.router, Node.command, Node.answer] :=
  (answer_prompt_augmentation [("use_command_tool", Json.bool true)]
    (some (Json.obj [("generated_command", Json.str "oci os ns get"),
                     ("missing_fields", Json.arr []),
                     ("notes", Json.str "")]))
    (fun p => p) "list" rfl).2.2.2.1

/-- A completed run makes `chat` return the response built from the
final state. -/
theorem chat_ok (o : Oracle) (q : String) (out : State)
    (h : (runGraphTrace o q).2 = Except.ok out) :
    chat o q = chatResponseOf out := by
  simp [chat, h]

/-- **C1**: the boundary field `tool_used` is derived from the final
state alone (via `toolUsedOf`; `State` carries no tool-used flag); it is
`false` when no command record is in the final state (in particular when
the command step never ran), and for a CommandResult-shaped record it is
`true` exactly when `generated_command` is a non-empty string or
`missing_fields` is a non-empty list. -/
theorem tool_used_boundary (o : Oracle) (q : String) (out : State) (resp : ChatResponse)
    (hrun : (runGraphTrace o q).2 = Except.ok out)
    (hchat : chat o q = Except.ok resp) :
    resp.tool_used = toolUsedOf out.command ∧
    (out.command = none → resp.tool_used = false) ∧
    (∀ (kvs : List (String × Json)) (gc : String) (mf : List Json),
      out.command = some (Json.obj kvs) →
      jget kvs "generated_command" = some (Json.str gc) →
      jget kvs "missing_fields" = some (Json.arr mf) →
      (resp.tool_used = true ↔ (gc ≠ "" ∨ mf ≠ []))) := by
  rw [chat_ok o q out hrun] at hchat
  unfold chatResponseOf at hchat
  rcases hc : out.command with _ | v
  · rw [hc] at hchat
    have hresp : Except.ok (ChatResponse.mk (out.reply.getD "") false (Json.str "") (Json.arr []))
        = Except.ok resp := hchat
    have hr2 := (Except.ok.inj hresp).symm
    subst hr2
    refine ⟨rfl, fun _ => rfl, ?_⟩
    intro kvs gc mf h1
    exact Option.noConfusion h1
  · rw [hc] at hchat
    cases v with
    | obj kvs =>
        have hresp : Except.ok (ChatResponse.mk (out.reply.getD "")
            (truthyOpt (jget kvs "generated_command") || truthyOpt (jget kvs "missing_fields"))
            ((jget kvs "generated_command").getD (Json.str ""))
            ((jget kvs "missing_fields").getD (Json.arr []))) = Except.ok resp := hchat
        have hr2 := (Except.ok.inj hresp).symm
        subst hr2
        refine ⟨rfl, ?_, ?_⟩
        · intro hnone
          exact Option.noConfusion hnone
        · intro kvs2 gc mf h1 hgc hmf
          have hk : kvs = kvs2 := Json.obj.inj (Option.some.inj h1)
          subst hk
          rw [hgc, hmf]
          simp [truthyOpt, truthy]
    | null => exact Except.noConfusion hchat
    | bool b => exact Except.noConfusion hchat
    | num n => exact Except.noConfusion hchat
    | str t => exact Except.noConfusion hchat
    | arr l => exact Except.noConfusion hchat

/-- **C1** witness: on a concrete command-path run with an empty
generated command and one missing field, `tool_used` is true. -/
theorem tool_used_boundary_witness :
    (ChatResponse.mk "r"
      (truthyOpt (jget [("generated_command", Json.str ""), ("missing_fields", Json.arr [Json.str "compartment_id"])] "generated_command")
       || truthyOpt (jget [("generated_command", Json.str ""), ("missing_fields", Json.arr [Json.str "compartment_id"])] "missing_fields"))
      ((jget [("generated_command", Json.str ""), ("missing_fields", Json.arr [Json.str "compartment_id"])] "generated_command").getD (Json.str ""))
      ((jget [("generated_command", Json.str ""), ("missing_fields", Json.arr [Json.str "compartment_id"])] "missing_fields").getD (Json.arr []))).tool_used
      = true ↔ ("" : String) ≠ "" ∨ ([Json.str "compartment_id"] : List Json) ≠ [] :=
  (tool_used_boundary
    ⟨some (Json.obj [("use_command_tool", Json.bool true)]),
     some (Json.obj [("generated_command", Json.str ""), ("missing_fields", Json.arr [Json.str "compartment_id"])]),
     fun _ => "r"⟩ "q"
    (answer (fun _ => "r")
      (command (some (Json.obj [("generated_command", Json.str ""), ("missing_fields", Json.arr [Json.str "compartment_id"])]))
        (router (some (Json.obj [("use_command_tool", Json.bool true)])) { user_input := "q" })))
    (ChatResponse.mk "r"
      (truthyOpt (jget [("generated_command", Json.str ""), ("missing_fields", Json.arr [Json.str "compartment_id"])] "generated_command")
       || truthyOpt (jget [("generated_command", Json.str ""), ("missing_fields", Json.arr [Json.str "compartment_id"])] "missing_fields"))
      ((jget [("generated_command", Json.str ""), ("missing_fields", Json.arr [Json.str "compartment_id"])] "generated_command").getD (Json.str ""))
      ((jget [("generated_command", Json.str ""), ("missing_fields", Json.arr [Json.str "compartment_id"])] "missing_fields").getD (Json.arr [])))
    rfl rfl).2.2
    [("generated_command", Json.str ""), ("missing_fields", Json.arr [Json.str "compartment_id"])]
    "" [Json.str "compartment_id"] rfl rfl rfl

/-- `"".join` over fragments that are all strings concatenates them. -/
theorem joinStrs_map (ss : List String) :
    joinStrs (ss.map Json.str) = Except.ok (ss.foldr (fun a b => a ++ b) "") := by
  induction ss with
  | nil => rfl
  | cons s rest ih =>
      simp only [List.map_cons, joinStrs, ih]
      rfl

/-- **C8**: a 429 response makes the submission loop sleep exactly
`retry_after + 1` time-units and retry; the wait defaults to 5 when the
body is undecodable, not an object, lacks `retry_after`, or holds an
unconvertible value (so the default sleep is 6, and `retry_after = 3`
sleeps 4); any number of consecutive 429s are all retried with the
outcome determined solely by what follows them, and the loop only ever
returns a prediction id after a non-429 response. -/
theorem submit_retry_behavior :
    (∀ (body : Option Json) (rest : List HttpResp),
      submitLoop (⟨429, body⟩ :: rest)
        = ((retry_after_of body + 1) :: (submitLoop rest).1, (submitLoop rest).2)) ∧
    retry_after_of none = 5 ∧
    (∀ kvs, jget kvs "retry_after" = none → retry_after_of (some (Json.obj kvs)) = 5) ∧
    (∀ v, pyInt v = none → retry_after_of (some (Json.obj [("retry_after", v)])) = 5) ∧
    retry_after_of (some (Json.obj [("retry_after", Json.num 3)])) + 1 = 4 ∧
    retry_after_of none + 1 = 6 ∧
    (∀ (n : Nat) (body : Option Json) (rest : List HttpResp),
      submitLoop (List.replicate n ⟨429, body⟩ ++ rest)
        = (List.replicate n (retry_after_of body + 1) ++ (submitLoop rest).1,
           (submitLoop rest).2)) ∧
    (∀ (rs : List HttpResp) (v : Json),
      (submitLoop rs).2 = Except.ok v → ∃ r ∈ rs, r.status ≠ 429) := by
  have hstep : ∀ (body : Option Json) (rest : List HttpResp),
      submitLoop (⟨429, body⟩ :: rest)
        = ((retry_after_of body + 1) :: (submitLoop rest).1, (submitLoop rest).2) := by
    intro body rest
    rcases hsl : submitLoop rest with ⟨sl, res⟩
    simp [submitLoop, hsl]
  have hrep : ∀ (n : Nat) (body : Option Json) (rest : List HttpResp),
      submitLoop (List.replicate n ⟨429, body⟩ ++ rest)
        = (List.replicate n (retry_after_of body + 1) ++ (submitLoop rest).1,
           (submitLoop rest).2) := by
    intro n body rest
    induction n with
    | zero => simp
    | succ k ih => simp [List.replicate_succ, hstep, ih]
  have hexit : ∀ (rs : List HttpResp) (v : Json),
      (submitLoop rs).2 = Except.ok v → ∃ r ∈ rs, r.status ≠ 429 := by
    intro rs
    induction rs with
    | nil =>
        intro v hv
        simp [submitLoop] at hv
    | cons r rest ih =>
        intro v hv
        by_cases h4 : r.status = 429
        · rcases r with ⟨st, body⟩
          simp only at h4
          subst h4
          rw [hstep] at hv
          have hv2 : (submitLoop rest).2 = Except.ok v := hv
          obtain ⟨r2, hr2, hne⟩ := ih v hv2
          exact ⟨r2, List.mem_cons_of_mem _ hr2, hne⟩
        · exact ⟨r, List.mem_cons_self r rest, h4⟩
  refine ⟨hstep, rfl, ?_, ?_, rfl, rfl, hrep, hexit⟩
  · intro kvs h
    simp [retry_after_of, h]
  · intro v h
    simp [retry_after_of, jget, h]

/-- **C8** witness: an undecodable 429 body falls back to the default
wait of 5. -/
theorem submit_retry_behavior_witness :
    retry_after_of (some (Json.obj [("retry_after", Json.null)])) = 5 :=
  submit_retry_behavior.2.2.2.1 Json.null rfl

/-- **C9** counterexample: on the poll payload `{"status": "failed"}` the
raised failure is identical for two different job ids and consists only
of the status value and the payload — so it does not carry the job id,
refuting "raises a ModelError-class failure carrying the job id and full
status payload". -/
theorem poll_modelerror_pid_counterexample :
    pollLoop (Json.str "job-A") [some (Json.obj [("status", Json.str "failed")])]
      = pollLoop (Json.str "job-B") [some (Json.obj [("status", Json.str "failed")])] ∧
    (pollLoop (Json.str "job-A") [some (Json.obj [("status", Json.str "failed")])]).2
      = Except.error (PyError.modelError (Json.str "failed")
          (Json.obj [("status", Json.str "failed")])) :=
  ⟨rfl, rfl⟩

/-- **C9** (amended): the polling loop returns normally exactly on a
`succeeded` poll, with the job output (fragments concatenated when the
output is an ordered list of strings); it raises on `failed`/`canceled`,
the failure carrying the failing status value and the full status payload
(the job id only insofar as the payload contains it); any other status
value — unknown or non-string ones included — counts as still pending:
the loop sleeps one fixed time-unit and polls again. -/
theorem poll_status_behavior (pid : Json) (kvs : List (String × Json))
    (rest : List (Option Json)) :
    (jget kvs "status" = some (Json.str "succeeded") →
      pollLoop pid (some (Json.obj kvs) :: rest) = (0, succOutput kvs)) ∧
    (∀ ss : List String, jget kvs "status" = some (Json.str "succeeded") →
      jget kvs "output" = some (Json.arr (ss.map Json.str)) →
      pollLoop pid (some (Json.obj kvs) :: rest)
        = (0, Except.ok (ss.foldr (fun a b => a ++ b) ""))) ∧
    (∀ st, jget kvs "status" = some st →
      (st = Json.str "failed" ∨ st = Json.str "canceled") →
      pollLoop pid (some (Json.obj kvs) :: rest)
        = (0, Except.error (PyError.modelError st (Json.obj kvs)))) ∧
    (∀ st, jget kvs "status" = some st →
      isJStr st "succeeded" = false →
      isJStr st "failed" = false →
      isJStr st "canceled" = false →
      pollLoop pid (some (Json.obj kvs) :: rest)
        = ((pollLoop pid rest).1 + 1, (pollLoop pid rest).2)) := by
  refine ⟨?_, ?_, ?_, ?_⟩
  · intro hst
    simp [pollLoop, hst, isJStr]
  · intro ss hst hout
    have h1 : pollLoop pid (some (Json.obj kvs) :: rest) = (0, succOutput kvs) := by
      simp [pollLoop, hst, isJStr]
    rw [h1]
    have h2 : succOutput kvs = Except.ok (ss.foldr (fun a b => a ++ b) "") := by
      simp [succOutput, hout, joinStrs_map]
    rw [h2]
  · intro st hst hor
    rcases hor with h | h <;> subst h <;> simp [pollLoop, hst, isJStr]
  · intro st hst h1 h2 h3
    rcases hp : pollLoop pid rest with ⟨n, res⟩
    simp [pollLoop, hst, h1, h2, h3, hp]

/-- **C9** witness: an unknown status `"starting"` is treated as still
pending — one more 1-time-unit sleep, then the loop continues. -/
theorem poll_status_behavior_witness :
    pollLoop (Json.str "p") [some (Json.obj [("status", Json.str "starting")])]
      = ((pollLoop (Json.str "p") []).1 + 1, (pollLoop (Json.str "p") []).2) :=
  (poll_status_behavior (Json.str "p") [("status", Json.str "starting")] []).2.2.2
    (Json.str "starting") rfl rfl rfl rfl
